import Mathlib

/-!
VELOIRE demo script: page interaction binder

A shallow embedding of `src/demo3/script.js` and the properties of its
listeners.

The model:

* The document is a list of elements in document order.  Every element records
  the index of its parent, so that `row.querySelector` is restricted to the
  descendants of the row, as in the DOM.
* The body of the `DOMContentLoaded` callback is the function
  `domContentLoaded`.  It returns the calls of `addEventListener` the script
  makes, in order.  A listener is a closure of the source; it is represented by
  a constructor of `Listener` that holds the captured variables, and
  `runListener` gives its effect.
* An event is delivered to the listeners registered on its target element, in
  registration order.  Propagation to listeners registered on ancestors of the
  target is not part of the model: a click on an element means that the
  listeners of this element run.
* Effects other than DOM mutation (`preventDefault`, `alert`, `form.reset`,
  `scrollIntoView`, an exception that no listener catches) are appended to a
  log, so that their order can be stated.
* `document.querySelector` applied to the string read from `data-target` is a
  parameter of the model (`SelectorEngine`): it throws, returns an element or
  returns null.  The selectors the script itself writes down are values of
  `Selector`.
* `form.reset()` gives every control inside the form its default value.
* An assignment to `textContent` is recorded as the text of the element; that
  it also discards the children of the element is not recorded.
-/

namespace Veloire

/-! ## Data model -/

/-- One element of the page.  `parent` is the index of the parent element in the
document list, `classList` the ordered class tokens, `attrs` the other
attributes, `value` and `defaultValue` the state of a form control. -/
structure Element where
  parent : Option Nat
  id : String
  classList : List String
  attrs : List (String × String)
  textContent : String
  value : String
  defaultValue : String
deriving DecidableEq, Repr

/-- The page: its elements in document order. -/
abbrev Document := List Element

/-- The three selector shapes the script passes to `querySelectorAll` and
`querySelector`: `.c`, `[n]` and `[n=v]`. -/
inductive Selector where
  | cls (c : String)
  | hasAttr (n : String)
  | attrEq (n v : String)
deriving DecidableEq, Repr

/-- Observable effects of a listener besides DOM mutation. -/
inductive Effect where
  | preventDefault
  | alert (message : String)
  | reset (form : Nat)
  | scrollIntoView (target : Nat) (behavior block : String)
  | uncaught (error : String)
deriving DecidableEq, Repr

/-- Page state while events are processed. -/
structure State where
  doc : Document
  log : List Effect
deriving DecidableEq, Repr

/-- The three outcomes of `document.querySelector(string)`: it throws on a
string that is not a selector, and otherwise returns the first matching element
or null. -/
inductive QueryResult where
  | throws (error : String)
  | found (target : Nat)
  | null
deriving DecidableEq, Repr

/-- The resolution of selector strings by the browser. -/
abbrev SelectorEngine := Document → String → QueryResult

/-! ## DOM primitives -/

/-- Apply `f` to the element at index `i`, if there is one. -/
def modifyElem : Document → Nat → (Element → Element) → Document
  | [], _, _ => []
  | e :: es, 0, f => f e :: es
  | e :: es, i + 1, f => e :: modifyElem es i f

/-- Reading `element.getAttribute(name)`: null when the attribute is absent. -/
def getAttribute (d : Document) (i : Nat) (name : String) : Option String :=
  (d[i]?).bind (fun e => e.attrs.lookup name)

/-- Reading `element.id`. -/
def idOf (d : Document) (i : Nat) : Option String :=
  (d[i]?).map (fun e => e.id)

/-- Whether the element at `i` carries the class token `c`. -/
def hasClass (d : Document) (i : Nat) (c : String) : Bool :=
  match d[i]? with
  | some e => e.classList.contains c
  | none => false

/-- The tokens left after `classList.remove(...tokens)`. -/
def removeTokens (tokens : List String) (cl : List String) : List String :=
  cl.filter (fun c => !(tokens.contains c))

/-- The tokens after `classList.add(token)`. -/
def addToken (token : String) (cl : List String) : List String :=
  if cl.contains token then cl else cl ++ [token]

/-- Effect of `classList.remove(...tokens)` on the element at `i`. -/
def classListRemove (d : Document) (i : Nat) (tokens : List String) : Document :=
  modifyElem d i (fun e => { e with classList := removeTokens tokens e.classList })

/-- Effect of `classList.add(token)` on the element at `i`. -/
def classListAdd (d : Document) (i : Nat) (token : String) : Document :=
  modifyElem d i (fun e => { e with classList := addToken token e.classList })

/-- Effect of `classList.toggle(token, force)` on the element at `i`. -/
def classListToggle (d : Document) (i : Nat) (token : String) (force : Bool) : Document :=
  if force then classListAdd d i token else classListRemove d i [token]

/-- Effect of the assignment `element.textContent = text`: the text of the
element afterwards.  That the assignment also discards the child elements of
the element is not recorded: they stay in the list with their own classes, text
and attributes, which the assignment leaves alone.  The script assigns to status
pills only. -/
def setTextContent (d : Document) (i : Nat) (text : String) : Document :=
  modifyElem d i (fun e => { e with textContent := text })

/-- Whether an element matches a selector. -/
def Selector.matchesElem : Selector → Element → Bool
  | .cls c, e => e.classList.contains c
  | .hasAttr n, e => (e.attrs.lookup n).isSome
  | .attrEq n v, e => e.attrs.lookup n == some v

/-- Whether the element at index `i` matches the selector. -/
def matchesAt (d : Document) (s : Selector) (i : Nat) : Bool :=
  match d[i]? with
  | some e => s.matchesElem e
  | none => false

/-- Result of `document.querySelectorAll(s)`: the matching elements in document
order. -/
def querySelectorAll (d : Document) (s : Selector) : List Nat :=
  (List.range d.length).filter (fun i => matchesAt d s i)

/-- The chain of ancestors of `j`, nearest first, following at most `fuel`
parent links. -/
def ancestors (d : Document) : Nat → Nat → List Nat
  | 0, _ => []
  | fuel + 1, j =>
    match (d[j]?).bind (fun e => e.parent) with
    | none => []
    | some p => p :: ancestors d fuel p

/-- Whether `j` is a descendant of `r`. -/
def isDescendant (d : Document) (r j : Nat) : Bool :=
  (ancestors d d.length j).contains r

/-- Result of `element.querySelector(s)` on the element at `r`: the first
descendant of `r` matching `s`, or null. -/
def querySelectorIn (d : Document) (r : Nat) (s : Selector) : Option Nat :=
  (querySelectorAll d s).find? (fun i => isDescendant d r i)

/-- Result of `document.getElementById(name)`: the first element with that id. -/
def getElementById (d : Document) (name : String) : Option Nat :=
  (List.range d.length).find? (fun i => idOf d i == some name)

/-- A form control after its form was reset. -/
def resetControl (e : Element) : Element :=
  { e with value := e.defaultValue }

/-- Effect of `form.reset()` on the page: every control inside the form goes
back to its default value. -/
def formReset (d : Document) (form : Nat) : Document :=
  (List.range d.length).foldl
    (fun acc i => if isDescendant d form i then modifyElem acc i resetControl else acc)
    d

/-- The string a template literal substitutes for a value read with
`getAttribute`: the text `null` for a missing attribute. -/
def templateString : Option String → String
  | none => "null"
  | some t => t

/-! ## The listeners of the script -/

/-- The kind of event a listener is registered for. -/
inductive EventType where
  | click
  | submit
deriving DecidableEq, Repr

/-- The closures the script passes to `addEventListener`, with the variables
each one captures. -/
inductive Listener where
  | scrollTo (btn : Nat)
  | rfaForm (form : Nat)
  | ownerForm (ownerForm : Nat)
  | newsletterForm (newsletterForm : Nat)
  | adminNav (button : Nat) (adminNavItems adminSections : List Nat)
  | setStatus (statusPill : Option Nat) (status : String)
deriving DecidableEq, Repr

/-- One call of `addEventListener`. -/
structure Binding where
  target : Nat
  type : EventType
  listener : Listener
deriving DecidableEq, Repr

/-- Message of the generic request-for-access interceptor. -/
def rfaMessage : String :=
  "Thank you. Your Request for Access has been captured for manual review.\n\n" ++
  "(This is a front-end demo only.)"

/-- Message of the owner enquiry interceptor. -/
def ownerMessage : String :=
  "Thank you. A member of the VELOIRE team will contact you regarding your partnership enquiry.\n\n" ++
  "(Demo only.)"

/-- Message of the newsletter interceptor. -/
def newsletterMessage : String :=
  "Thank you. Your email has been added to the private early access list.\n\n" ++
  "(Demo only.)"

/-- The click listener of a `.js-scroll-to` button. -/
def scrollToClick (qs : SelectorEngine) (btn : Nat) (st : State) : State :=
  match getAttribute st.doc btn "data-target" with
  | none => st
  | some targetSelector =>
    if targetSelector = "" then st
    else
      match qs st.doc targetSelector with
      | .throws err => { st with log := st.log ++ [Effect.uncaught err] }
      | .null => st
      | .found target =>
        { st with log := st.log ++ [Effect.scrollIntoView target "smooth" "start"] }

/-- The common body of the three submit listeners: `event.preventDefault()`,
`alert(message)`, `form.reset()`. -/
def interceptSubmit (message : String) (form : Nat) (st : State) : State :=
  let st1 : State := { st with log := st.log ++ [Effect.preventDefault] }
  let st2 : State := { st1 with log := st1.log ++ [Effect.alert message] }
  { doc := formReset st2.doc form, log := st2.log ++ [Effect.reset form] }

/-- The click listener of an admin navigation item. -/
def adminNavClick (button : Nat) (adminNavItems adminSections : List Nat)
    (d : Document) : Document :=
  let target := getAttribute d button "data-admin-section"
  let d1 := adminNavItems.foldl (fun acc b => classListRemove acc b ["is-active"]) d
  let d2 := classListAdd d1 button "is-active"
  adminSections.foldl
    (fun acc sec =>
      classListToggle acc sec "is-active"
        (idOf acc sec == some ("admin-" ++ templateString target)))
    d2

/-- The function `setStatus` of a status row, closed over the row's
`statusPill`. -/
def setStatus (statusPill : Option Nat) (status : String) (d : Document) : Document :=
  match statusPill with
  | none => d
  | some pill =>
    let d1 := classListRemove d pill ["status-pending", "status-approved"]
    if status = "pending" then
      classListAdd (setTextContent d1 pill "Pending") pill "status-pending"
    else if status = "approved" then
      classListAdd (setTextContent d1 pill "Approved") pill "status-approved"
    else if status = "rejected" then
      classListAdd (setTextContent d1 pill "Rejected") pill "status-pending"
    else d1

/-- Running one listener on the current page state. -/
def runListener (qs : SelectorEngine) : Listener → State → State
  | .scrollTo btn, st => scrollToClick qs btn st
  | .rfaForm form, st => interceptSubmit rfaMessage form st
  | .ownerForm form, st => interceptSubmit ownerMessage form st
  | .newsletterForm form, st => interceptSubmit newsletterMessage form st
  | .adminNav button items sections, st =>
    { st with doc := adminNavClick button items sections st.doc }
  | .setStatus statusPill status, st => { st with doc := setStatus statusPill status st.doc }

/-! ## Registration at page load -/

/-- The listeners one `[data-rfa-row]` element registers. -/
def rowBindings (d : Document) (row : Nat) : List Binding :=
  let approveBtn := querySelectorIn d row (.attrEq "data-action" "approve")
  let rejectBtn := querySelectorIn d row (.attrEq "data-action" "reject")
  let resetBtn := querySelectorIn d row (.attrEq "data-action" "reset")
  let statusPill := querySelectorIn d row (.cls "status-pill")
  (match approveBtn with
    | some b => [Binding.mk b .click (.setStatus statusPill "approved")]
    | none => []) ++
  (match rejectBtn with
    | some b => [Binding.mk b .click (.setStatus statusPill "rejected")]
    | none => []) ++
  (match resetBtn with
    | some b => [Binding.mk b .click (.setStatus statusPill "pending")]
    | none => [])

/-- The listeners of the admin tab controller. -/
def adminNavBindings (d : Document) : List Binding :=
  let adminNavItems := querySelectorAll d (.cls "admin-nav-item")
  let adminSections := querySelectorAll d (.cls "admin-section")
  if adminNavItems.length ≠ 0 ∧ adminSections.length ≠ 0 then
    adminNavItems.map (fun button =>
      Binding.mk button .click (.adminNav button adminNavItems adminSections))
  else []

/-- The body of the `DOMContentLoaded` callback: every `addEventListener` call
it makes, in order. -/
def domContentLoaded (d : Document) : List Binding :=
  (querySelectorAll d (.cls "js-scroll-to")).map
    (fun btn => Binding.mk btn .click (.scrollTo btn)) ++
  (querySelectorAll d (.hasAttr "data-rfa-form")).map
    (fun form => Binding.mk form .submit (.rfaForm form)) ++
  (match getElementById d "owner-enquiry-form" with
    | some ownerForm => [Binding.mk ownerForm .submit (.ownerForm ownerForm)]
    | none => []) ++
  (match getElementById d "newsletter-form" with
    | some newsletterForm => [Binding.mk newsletterForm .submit (.newsletterForm newsletterForm)]
    | none => []) ++
  adminNavBindings d ++
  (querySelectorAll d (.hasAttr "data-rfa-row")).flatMap (rowBindings d)

/-! ## Event delivery -/

/-- The listeners registered on `target` for events of type `ty`, in
registration order. -/
def listenersOn (bs : List Binding) (ty : EventType) (target : Nat) : List Listener :=
  (bs.filter (fun b => b.target == target && b.type == ty)).map (fun b => b.listener)

/-- Delivery of one event of type `ty` to `target`. -/
def dispatch (qs : SelectorEngine) (bs : List Binding) (ty : EventType) (target : Nat)
    (st : State) : State :=
  (listenersOn bs ty target).foldl (fun s l => runListener qs l s) st

/-- A click on `target`. -/
def click (qs : SelectorEngine) (bs : List Binding) (target : Nat) (st : State) : State :=
  dispatch qs bs .click target st

/-- A submit event on `target`. -/
def submit (qs : SelectorEngine) (bs : List Binding) (target : Nat) (st : State) : State :=
  dispatch qs bs .submit target st

/-- A selector engine for examples: it resolves `#name` by id (for a name of
letters, digits, hyphens and underscores that starts with a letter) and rejects
every other string the way a browser rejects `#` alone. -/
def idSelectorEngine : SelectorEngine := fun d sel =>
  match sel.data with
  | '#' :: c :: cs =>
    if c.isAlpha && cs.all (fun x => x.isAlphanum || x == '-' || x == '_') then
      match getElementById d (String.mk (c :: cs)) with
      | some target => .found target
      | none => .null
    else .throws "SyntaxError"
  | _ => .throws "SyntaxError"

/-! ## Vocabulary for the statements -/

/-- The three controls a status row may contain. -/
inductive Control where
  | approve
  | reject
  | reset
deriving DecidableEq, Repr

/-- The `data-action` value by which the script looks a control up. -/
def Control.action : Control → String
  | .approve => "approve"
  | .reject => "reject"
  | .reset => "reset"

/-- The status the listener of a control passes to `setStatus`. -/
def Control.status : Control → String
  | .approve => "approved"
  | .reject => "rejected"
  | .reset => "pending"

/-- The control of a row as the script finds it. -/
def controlOf (d : Document) (row : Nat) (c : Control) : Option Nat :=
  querySelectorIn d row (.attrEq "data-action" c.action)

/-- The status pill of a row as the script finds it. -/
def statusPillOf (d : Document) (row : Nat) : Option Nat :=
  querySelectorIn d row (.cls "status-pill")

/-- The pill a control leads to: text, `status-pending`, `status-approved`. -/
def Control.pill : Control → Option String × Bool × Bool
  | .approve => (some "Approved", false, true)
  | .reject => (some "Rejected", true, false)
  | .reset => (some "Pending", true, false)

/-- An element without form state. -/
def elem (parent : Option Nat) (id : String) (classList : List String)
    (attrs : List (String × String)) (textContent : String) : Element :=
  { parent := parent, id := id, classList := classList, attrs := attrs,
    textContent := textContent, value := "", defaultValue := "" }

/-- Navigation items on a page without any section. -/
def navOnlyPage : Document :=
  [ elem none "" ["admin-nav-item", "is-active"] [("data-admin-section", "a")] "A",
    elem none "" ["admin-nav-item"] [("data-admin-section", "b")] "B" ]

/-- Scroll triggers: one with a target that exists, one with a target that
matches nothing, one without the attribute, one with an empty attribute and one
whose attribute is the string `#`. -/
def scrollPage : Document :=
  [ elem none "" ["js-scroll-to"] [("data-target", "#hero")] "",
    elem none "" ["js-scroll-to"] [("data-target", "#missing")] "",
    elem none "" ["js-scroll-to"] [] "",
    elem none "" ["js-scroll-to"] [("data-target", "")] "",
    elem none "" ["js-scroll-to"] [("data-target", "#")] "",
    elem none "hero" [] [] "" ]

/-! ## Lemmas on the DOM primitives -/

theorem getElem?_modifyElem (d : Document) (i : Nat) (f : Element → Element) (j : Nat) :
    (modifyElem d i f)[j]? = if j = i then (d[j]?).map f else d[j]? := by
  induction d generalizing i j with
  | nil => simp [modifyElem]
  | cons e es ih =>
    cases i with
    | zero =>
      cases j with
      | zero => simp [modifyElem]
      | succ j => simp [modifyElem]
    | succ i =>
      cases j with
      | zero => simp [modifyElem]
      | succ j => simp [modifyElem, ih]

theorem mem_removeTokens (ts cl : List String) (c : String) :
    c ∈ removeTokens ts cl ↔ c ∈ cl ∧ c ∉ ts := by
  simp [removeTokens]

theorem mem_addToken (t : String) (cl : List String) (c : String) :
    c ∈ addToken t cl ↔ c ∈ cl ∨ c = t := by
  unfold addToken
  split
  · rename_i h
    simp at h
    constructor
    · intro hc; exact Or.inl hc
    · rintro (hc | rfl)
      · exact hc
      · exact h
  · simp

theorem foldl_invariant {σ ι : Type} (run : ι → σ → σ) (P : σ → Prop) (ls : List ι)
    (h : ∀ l ∈ ls, ∀ s, P s → P (run l s)) (st : σ) (h0 : P st) :
    P (ls.foldl (fun s l => run l s) st) := by
  induction ls generalizing st with
  | nil => simpa using h0
  | cons l ls ih =>
    simp only [List.foldl_cons]
    exact ih (fun l' hl' => h l' (List.mem_cons_of_mem _ hl')) _ (h l (List.mem_cons_self _ _) st h0)

theorem getElem?_setStatus_ne (pill : Nat) (s : String) (d : Document) (j : Nat)
    (h : j ≠ pill) : (setStatus (some pill) s d)[j]? = d[j]? := by
  unfold setStatus
  simp only []
  split_ifs <;>
    simp [classListAdd, setTextContent, classListRemove, getElem?_modifyElem, h]

theorem hasClass_setStatus_of_ne (p : Option Nat) (s : String) (d : Document) (j : Nat)
    (tok : String) (h1 : tok ≠ "status-pending") (h2 : tok ≠ "status-approved") :
    hasClass (setStatus p s d) j tok = hasClass d j tok := by
  cases p with
  | none => rfl
  | some pill =>
    by_cases hj : j = pill
    · subst hj
      unfold setStatus hasClass
      simp only []
      split_ifs <;>
        cases hd : d[j]? <;>
        simp [classListAdd, setTextContent, classListRemove, getElem?_modifyElem, hd,
          mem_addToken, mem_removeTokens, h1, h2]
    · unfold hasClass
      rw [getElem?_setStatus_ne _ _ _ _ hj]

theorem doc_scrollToClick (qs : SelectorEngine) (btn : Nat) (st : State) :
    (scrollToClick qs btn st).doc = st.doc := by
  simp only [scrollToClick]
  split
  · rfl
  · split_ifs
    · rfl
    · split <;> rfl

theorem mem_rowBindings (d : Document) (row : Nat) (b : Binding) :
    b ∈ rowBindings d row ↔
      ∃ c : Control, controlOf d row c = some b.target ∧
        b = Binding.mk b.target .click (.setStatus (statusPillOf d row) c.status) := by
  constructor
  · intro h
    unfold rowBindings at h
    simp only [List.mem_append] at h
    rcases h with (h | h) | h
    · refine ⟨.approve, ?_⟩
      cases hq : querySelectorIn d row (.attrEq "data-action" "approve") with
      | none => simp [hq] at h
      | some x =>
        simp only [hq, List.mem_singleton] at h
        subst h
        exact ⟨hq, rfl⟩
    · refine ⟨.reject, ?_⟩
      cases hq : querySelectorIn d row (.attrEq "data-action" "reject") with
      | none => simp [hq] at h
      | some x =>
        simp only [hq, List.mem_singleton] at h
        subst h
        exact ⟨hq, rfl⟩
    · refine ⟨.reset, ?_⟩
      cases hq : querySelectorIn d row (.attrEq "data-action" "reset") with
      | none => simp [hq] at h
      | some x =>
        simp only [hq, List.mem_singleton] at h
        subst h
        exact ⟨hq, rfl⟩
  · rintro ⟨c, hc, hb⟩
    rw [hb]
    unfold rowBindings
    simp only [List.mem_append]
    cases c with
    | approve =>
      have hc' : querySelectorIn d row (.attrEq "data-action" "approve") = some b.target := hc
      left; left
      simp [hc', statusPillOf, Control.status]
    | reject =>
      have hc' : querySelectorIn d row (.attrEq "data-action" "reject") = some b.target := hc
      left; right
      simp [hc', statusPillOf, Control.status]
    | reset =>
      have hc' : querySelectorIn d row (.attrEq "data-action" "reset") = some b.target := hc
      right
      simp [hc', statusPillOf, Control.status]

theorem mem_adminNavBindings (d : Document) (b : Binding) :
    b ∈ adminNavBindings d ↔
      b.target ∈ querySelectorAll d (.cls "admin-nav-item") ∧
      querySelectorAll d (.cls "admin-section") ≠ [] ∧
      b = Binding.mk b.target .click
        (.adminNav b.target (querySelectorAll d (.cls "admin-nav-item"))
          (querySelectorAll d (.cls "admin-section"))) := by
  unfold adminNavBindings
  simp only []
  split_ifs with hg
  · simp only [List.mem_map]
    constructor
    · rintro ⟨x, hx, rfl⟩
      refine ⟨hx, ?_, rfl⟩
      intro h
      simp [h] at hg
    · rintro ⟨h1, _, h3⟩
      exact ⟨b.target, h1, h3.symm⟩
  · constructor
    · intro h
      simp at h
    · rintro ⟨h1, h2, _⟩
      exfalso
      apply hg
      refine ⟨?_, ?_⟩
      · intro h0
        have := List.eq_nil_of_length_eq_zero h0
        rw [this] at h1
        simp at h1
      · intro h0
        exact h2 (List.eq_nil_of_length_eq_zero h0)

theorem mem_listenersOn_click (d : Document) (a : Nat) (l : Listener) :
    l ∈ listenersOn (domContentLoaded d) .click a ↔
      (a ∈ querySelectorAll d (.cls "js-scroll-to") ∧ l = .scrollTo a) ∨
      (a ∈ querySelectorAll d (.cls "admin-nav-item") ∧
        querySelectorAll d (.cls "admin-section") ≠ [] ∧
        l = .adminNav a (querySelectorAll d (.cls "admin-nav-item"))
          (querySelectorAll d (.cls "admin-section"))) ∨
      (∃ row c, row ∈ querySelectorAll d (.hasAttr "data-rfa-row") ∧
        controlOf d row c = some a ∧ l = .setStatus (statusPillOf d row) c.status) := by
  unfold listenersOn domContentLoaded
  simp only [List.mem_map, List.mem_filter, List.mem_append, List.mem_flatMap,
    Bool.and_eq_true, beq_iff_eq]
  constructor
  · rintro ⟨b, ⟨hb, ht, hty⟩, rfl⟩
    rcases hb with ((((hb | hb) | hb) | hb) | hb) | hb
    · obtain ⟨x, hx, rfl⟩ := hb
      simp only at ht
      subst ht
      exact Or.inl ⟨hx, rfl⟩
    · obtain ⟨x, hx, rfl⟩ := hb
      simp at hty
    · cases hq : getElementById d "owner-enquiry-form" with
      | none => simp [hq] at hb
      | some f =>
        simp only [hq, List.mem_singleton] at hb
        subst hb
        simp at hty
    · cases hq : getElementById d "newsletter-form" with
      | none => simp [hq] at hb
      | some f =>
        simp only [hq, List.mem_singleton] at hb
        subst hb
        simp at hty
    · rw [mem_adminNavBindings] at hb
      obtain ⟨h1, h2, h3⟩ := hb
      rw [ht] at h1 h3
      right; left
      refine ⟨h1, h2, ?_⟩
      rw [h3]
    · obtain ⟨row, hrow, hb⟩ := hb
      rw [mem_rowBindings] at hb
      obtain ⟨c, hc, hb⟩ := hb
      rw [ht] at hc hb
      right; right
      refine ⟨row, c, hrow, hc, ?_⟩
      rw [hb]
  · rintro (⟨h, rfl⟩ | ⟨h1, h2, rfl⟩ | ⟨row, c, hrow, hc, rfl⟩)
    · refine ⟨Binding.mk a .click (.scrollTo a), ⟨?_, rfl, rfl⟩, rfl⟩
      exact Or.inl (Or.inl (Or.inl (Or.inl (Or.inl ⟨a, h, rfl⟩))))
    · refine ⟨Binding.mk a .click (.adminNav a _ _), ⟨?_, rfl, rfl⟩, rfl⟩
      refine Or.inl (Or.inr ?_)
      rw [mem_adminNavBindings]
      exact ⟨h1, h2, rfl⟩
    · refine ⟨Binding.mk a .click (.setStatus (statusPillOf d row) c.status), ⟨?_, rfl, rfl⟩, rfl⟩
      refine Or.inr ⟨row, hrow, ?_⟩
      rw [mem_rowBindings]
      exact ⟨c, hc, rfl⟩

/-! ### Queries -/

theorem filter_beq_of_nodup (l : List Nat) (hl : l.Nodup) (f : Nat) :
    l.filter (fun x => x == f) = if f ∈ l then [f] else [] := by
  induction l with
  | nil => simp
  | cons x xs ih =>
    rw [List.nodup_cons] at hl
    simp only [List.filter_cons, ih hl.2, List.mem_cons]
    by_cases hx : x = f
    · subst hx
      simp [hl.1]
    · have hx' : ¬ f = x := fun e => hx e.symm
      simp [hx, hx']

theorem nodup_querySelectorAll (d : Document) (s : Selector) : (querySelectorAll d s).Nodup :=
  List.Nodup.filter _ (List.nodup_range _)

theorem listenersOn_append (bs bs' : List Binding) (ty : EventType) (a : Nat) :
    listenersOn (bs ++ bs') ty a = listenersOn bs ty a ++ listenersOn bs' ty a := by
  simp [listenersOn]

theorem listenersOn_eq_nil (bs : List Binding) (ty : EventType) (a : Nat)
    (h : ∀ b ∈ bs, b.type ≠ ty) : listenersOn bs ty a = [] := by
  unfold listenersOn
  rw [List.map_eq_nil_iff, List.filter_eq_nil_iff]
  intro b hb
  simp [h b hb]

theorem listenersOn_map (l : List Nat) (hl : l.Nodup) (ty : EventType)
    (mk : Nat → Listener) (a : Nat) :
    listenersOn (l.map (fun x => Binding.mk x ty (mk x))) ty a =
      if a ∈ l then [mk a] else [] := by
  unfold listenersOn
  rw [List.filter_map, List.map_map]
  have : ((fun b : Binding => b.target == a && b.type == ty) ∘
      fun x => Binding.mk x ty (mk x)) = fun x => x == a := by
    funext x
    simp
  rw [this, filter_beq_of_nodup l hl a]
  split_ifs <;> simp

theorem interceptSubmit_spec (message : String) (form : Nat) (st : State) :
    (interceptSubmit message form st).log =
        st.log ++ [Effect.preventDefault, Effect.alert message, Effect.reset form] ∧
      (interceptSubmit message form st).doc = formReset st.doc form := by
  simp [interceptSubmit]

/-- C7. Admin tab controller precondition: when the page has no navigation item
or no section, the controller registers no listener, and a click on any element
leaves the `is-active` marker of every element (so of every navigation item and
every section) as it was. -/
theorem adminTabs_inert_without_items_or_sections (qs : SelectorEngine) (d : Document)
    (hnone : querySelectorAll d (.cls "admin-nav-item") = [] ∨
      querySelectorAll d (.cls "admin-section") = []) :
    adminNavBindings d = [] ∧
    (∀ b ∈ domContentLoaded d, ∀ x y z, b.listener ≠ Listener.adminNav x y z) ∧
    (∀ (target : Nat) (st : State) (j : Nat),
      hasClass (click qs (domContentLoaded d) target st).doc j "is-active" =
        hasClass st.doc j "is-active") := by
  have hnil : adminNavBindings d = [] := by
    unfold adminNavBindings
    simp only []
    rw [if_neg]
    rintro ⟨h1, h2⟩
    rcases hnone with h | h
    · exact h1 (by rw [h]; rfl)
    · exact h2 (by rw [h]; rfl)
  refine ⟨hnil, ?_, ?_⟩
  · intro b hb x y z hl
    unfold domContentLoaded at hb
    rw [hnil] at hb
    simp only [List.mem_append, List.mem_map, List.mem_flatMap, List.not_mem_nil,
      or_false] at hb
    rcases hb with (((hb | hb) | hb) | hb) | hb
    · obtain ⟨_, _, rfl⟩ := hb
      simp at hl
    · obtain ⟨_, _, rfl⟩ := hb
      simp at hl
    · cases hq : getElementById d "owner-enquiry-form" with
      | none => simp [hq] at hb
      | some f =>
        simp only [hq, List.mem_singleton] at hb
        subst hb
        simp at hl
    · cases hq : getElementById d "newsletter-form" with
      | none => simp [hq] at hb
      | some f =>
        simp only [hq, List.mem_singleton] at hb
        subst hb
        simp at hl
    · obtain ⟨row, _, hb⟩ := hb
      rw [mem_rowBindings] at hb
      obtain ⟨c, _, hb⟩ := hb
      rw [hb] at hl
      simp at hl
  · intro target st j
    unfold click dispatch
    refine foldl_invariant (runListener qs)
      (fun s => hasClass s.doc j "is-active" = hasClass st.doc j "is-active") _ ?_ st rfl
    intro l hl s hs
    show hasClass (runListener qs l s).doc j "is-active" = hasClass st.doc j "is-active"
    rw [mem_listenersOn_click] at hl
    rcases hl with ⟨_, rfl⟩ | ⟨h1, h2, _⟩ | ⟨_, _, _, _, rfl⟩
    · simp only [runListener, doc_scrollToClick]; exact hs
    · exfalso
      rcases hnone with h | h
      · rw [h] at h1; simp at h1
      · exact h2 h
    · simp only [runListener]
      rw [hasClass_setStatus_of_ne _ _ _ _ _ (by decide) (by decide)]
      exact hs

/-- Witness for C7: on a page with navigation items and no section a click on
the second item leaves the first item active and the second inactive. -/
theorem adminTabs_inert_without_items_or_sections_witness :
    (querySelectorAll navOnlyPage (.cls "admin-nav-item") = [] ∨
      querySelectorAll navOnlyPage (.cls "admin-section") = []) ∧
    hasClass (click idSelectorEngine (domContentLoaded navOnlyPage) 1
        { doc := navOnlyPage, log := [] }).doc 0 "is-active" =
      hasClass navOnlyPage 0 "is-active" ∧
    hasClass (click idSelectorEngine (domContentLoaded navOnlyPage) 1
        { doc := navOnlyPage, log := [] }).doc 1 "is-active" =
      hasClass navOnlyPage 1 "is-active" ∧
    hasClass navOnlyPage 0 "is-active" = true ∧
    hasClass navOnlyPage 1 "is-active" = false ∧
    domContentLoaded navOnlyPage = [] :=
  ⟨Or.inr (by decide),
    (adminTabs_inert_without_items_or_sections idSelectorEngine navOnlyPage
      (Or.inr (by decide))).2.2 1 { doc := navOnlyPage, log := [] } 0,
    (adminTabs_inert_without_items_or_sections idSelectorEngine navOnlyPage
      (Or.inr (by decide))).2.2 1 { doc := navOnlyPage, log := [] } 1,
    by decide, by decide, by decide⟩

/-! ## Admin row status toggles -/

/-- C10. Acknowledgment messages: the three alert strings are pairwise
distinct, and each interceptor shows its own string whatever the page state,
and so whatever the submitted field contents. -/
theorem acknowledgment_messages_distinct_and_fixed :
    rfaMessage ≠ ownerMessage ∧ rfaMessage ≠ newsletterMessage ∧
    ownerMessage ≠ newsletterMessage ∧
    (∀ (qs : SelectorEngine) (form : Nat) (st : State),
      (runListener qs (.rfaForm form) st).log =
        st.log ++ [Effect.preventDefault, Effect.alert rfaMessage, Effect.reset form] ∧
      (runListener qs (.ownerForm form) st).log =
        st.log ++ [Effect.preventDefault, Effect.alert ownerMessage, Effect.reset form] ∧
      (runListener qs (.newsletterForm form) st).log =
        st.log ++ [Effect.preventDefault, Effect.alert newsletterMessage,
          Effect.reset form]) := by
  refine ⟨by decide, by decide, by decide, ?_⟩
  intro qs form st
  exact ⟨(interceptSubmit_spec _ _ _).1, (interceptSubmit_spec _ _ _).1,
    (interceptSubmit_spec _ _ _).1⟩

/-! ## Smooth scroll -/

theorem log_runListener_of_click (qs : SelectorEngine) (l : Listener) (st : State)
    (hl : (∃ x y z, l = .adminNav x y z) ∨ ∃ p s, l = .setStatus p s) :
    (runListener qs l st).log = st.log := by
  rcases hl with ⟨x, y, z, rfl⟩ | ⟨p, s, rfl⟩ <;> rfl

theorem listenersOn_click_scroll (d : Document) (btn : Nat)
    (hbtn : btn ∈ querySelectorAll d (.cls "js-scroll-to")) :
    ∃ rest, listenersOn (domContentLoaded d) .click btn = Listener.scrollTo btn :: rest ∧
      ∀ l ∈ rest, (∃ x y z, l = .adminNav x y z) ∨ ∃ p s, l = .setStatus p s := by
  refine ⟨listenersOn (adminNavBindings d) .click btn ++
    listenersOn ((querySelectorAll d (.hasAttr "data-rfa-row")).flatMap (rowBindings d))
      .click btn, ?_, ?_⟩
  · unfold domContentLoaded
    simp only [listenersOn_append]
    rw [listenersOn_map _ (nodup_querySelectorAll _ _), if_pos hbtn,
      listenersOn_eq_nil (List.map _ _) _ _ (by simp)]
    have h3 : listenersOn (match getElementById d "owner-enquiry-form" with
        | some ownerForm => [Binding.mk ownerForm .submit (.ownerForm ownerForm)]
        | none => []) .click btn = [] := by
      cases getElementById d "owner-enquiry-form" <;> simp [listenersOn]
    have h4 : listenersOn (match getElementById d "newsletter-form" with
        | some newsletterForm =>
          [Binding.mk newsletterForm .submit (.newsletterForm newsletterForm)]
        | none => []) .click btn = [] := by
      cases getElementById d "newsletter-form" <;> simp [listenersOn]
    rw [h3, h4]
    simp
  · intro l hl
    rw [List.mem_append] at hl
    rcases hl with hl | hl
    · left
      unfold listenersOn at hl
      simp only [List.mem_map, List.mem_filter] at hl
      obtain ⟨b, ⟨hb, _⟩, rfl⟩ := hl
      rw [mem_adminNavBindings] at hb
      rw [hb.2.2]
      exact ⟨_, _, _, rfl⟩
    · right
      unfold listenersOn at hl
      simp only [List.mem_map, List.mem_filter, List.mem_flatMap] at hl
      obtain ⟨b, ⟨⟨row, _, hb⟩, _⟩, rfl⟩ := hl
      rw [mem_rowBindings] at hb
      obtain ⟨c, _, hb⟩ := hb
      rw [hb]
      exact ⟨_, _, rfl⟩

theorem log_click_scroll (qs : SelectorEngine) (d : Document) (btn : Nat) (st : State)
    (hbtn : btn ∈ querySelectorAll d (.cls "js-scroll-to")) :
    (click qs (domContentLoaded d) btn st).log = (scrollToClick qs btn st).log := by
  obtain ⟨rest, hrest, hall⟩ := listenersOn_click_scroll d btn hbtn
  unfold click dispatch
  rw [hrest]
  simp only [List.foldl_cons]
  exact foldl_invariant (runListener qs)
    (fun s => s.log = (scrollToClick qs btn st).log) rest
    (fun l hl s hs => by
      show (runListener qs l s).log = _
      rw [log_runListener_of_click qs l s (hall l hl)]; exact hs) _ rfl

/-- C6 as stated fails. A scroll trigger whose `data-target` is the string `#`
resolves to no element, and the click raises the error thrown by
`document.querySelector`. -/
theorem scroll_click_unresolvable_raises :
    (4 ∈ querySelectorAll scrollPage (.cls "js-scroll-to") ∧
      getAttribute scrollPage 4 "data-target" = some "#" ∧
      idSelectorEngine scrollPage "#" = .throws "SyntaxError") ∧
    (click idSelectorEngine (domContentLoaded scrollPage) 4
      { doc := scrollPage, log := [] }).log = [Effect.uncaught "SyntaxError"] := by
  decide

/-- C6 (amended). Smooth-scroll click handler: every scroll trigger is bound.
If its `data-target` is a non-empty string that `document.querySelector`
resolves to an element, a click scrolls that element into view with behavior
smooth and block start.  If the attribute is absent, empty, or a selector that
matches no element, the handler changes nothing and raises no error.  If the
attribute is a string that `document.querySelector` rejects, the handler raises
that error, scrolls nothing and leaves the document unchanged. -/
theorem scroll_click_cases (qs : SelectorEngine) (d : Document) (btn : Nat) (st : State)
    (hbtn : btn ∈ querySelectorAll d (.cls "js-scroll-to")) :
    Listener.scrollTo btn ∈ listenersOn (domContentLoaded d) .click btn ∧
    (∀ sel target, getAttribute st.doc btn "data-target" = some sel → sel ≠ "" →
      qs st.doc sel = .found target →
      runListener qs (.scrollTo btn) st =
          { st with log := st.log ++ [Effect.scrollIntoView target "smooth" "start"] } ∧
        (click qs (domContentLoaded d) btn st).log =
          st.log ++ [Effect.scrollIntoView target "smooth" "start"]) ∧
    ((getAttribute st.doc btn "data-target" = none ∨
        getAttribute st.doc btn "data-target" = some "" ∨
        ∃ sel, getAttribute st.doc btn "data-target" = some sel ∧ qs st.doc sel = .null) →
      runListener qs (.scrollTo btn) st = st ∧
        (click qs (domContentLoaded d) btn st).log = st.log) ∧
    (∀ sel err, getAttribute st.doc btn "data-target" = some sel → sel ≠ "" →
      qs st.doc sel = .throws err →
      runListener qs (.scrollTo btn) st = { st with log := st.log ++ [Effect.uncaught err] } ∧
        (click qs (domContentLoaded d) btn st).log = st.log ++ [Effect.uncaught err]) := by
  have hlog := log_click_scroll qs d btn st hbtn
  refine ⟨?_, ?_, ?_, ?_⟩
  · rw [mem_listenersOn_click]
    exact Or.inl ⟨hbtn, rfl⟩
  · intro sel target hattr hsel hres
    have hrun : scrollToClick qs btn st =
        { st with log := st.log ++ [Effect.scrollIntoView target "smooth" "start"] } := by
      simp [scrollToClick, hattr, hsel, hres]
    exact ⟨hrun, by rw [hlog, hrun]⟩
  · intro h
    have hrun : scrollToClick qs btn st = st := by
      rcases h with h | h | ⟨sel, h, hres⟩
      · simp [scrollToClick, h]
      · simp [scrollToClick, h]
      · by_cases hsel : sel = ""
        · simp [scrollToClick, h, hsel]
        · simp [scrollToClick, h, hsel, hres]
    exact ⟨hrun, by rw [hlog, hrun]⟩
  · intro sel err hattr hsel hres
    have hrun : scrollToClick qs btn st =
        { st with log := st.log ++ [Effect.uncaught err] } := by
      simp [scrollToClick, hattr, hsel, hres]
    exact ⟨hrun, by rw [hlog, hrun]⟩

/-- Witness for C6 (amended): the trigger with target `#hero` scrolls the hero
element into view, the trigger with target `#missing` does nothing. -/
theorem scroll_click_cases_witness :
    (0 ∈ querySelectorAll scrollPage (.cls "js-scroll-to") ∧
      getAttribute scrollPage 0 "data-target" = some "#hero" ∧
      idSelectorEngine scrollPage "#hero" = .found 5) ∧
    (click idSelectorEngine (domContentLoaded scrollPage) 0
      { doc := scrollPage, log := [] }).log =
      [] ++ [Effect.scrollIntoView 5 "smooth" "start"] ∧
    (1 ∈ querySelectorAll scrollPage (.cls "js-scroll-to") ∧
      getAttribute scrollPage 1 "data-target" = some "#missing" ∧
      idSelectorEngine scrollPage "#missing" = .null) ∧
    runListener idSelectorEngine (.scrollTo 1) { doc := scrollPage, log := [] } =
      { doc := scrollPage, log := [] } :=
  ⟨⟨by decide, by decide, by decide⟩,
    ((scroll_click_cases idSelectorEngine scrollPage 0 { doc := scrollPage, log := [] }
      (by decide)).2.1 "#hero" 5 (by decide) (by decide) (by decide)).2,
    ⟨by decide, by decide, by decide⟩,
    ((scroll_click_cases idSelectorEngine scrollPage 1 { doc := scrollPage, log := [] }
      (by decide)).2.2.1 (Or.inr (Or.inr ⟨"#missing", by decide, by decide⟩))).1⟩

end Veloire
